import Mathlib

/-!
Verification of the article ingestion pipeline of the radiology-ai-dashboard
repository (src/src/App.js). The JavaScript functions with pipeline logic are
embedded shallowly: text is handled as `List Char` (JS strings are compared
case-insensitively by the code after `toLowerCase`), JS `Date` instants are
epoch milliseconds (`Int`), an invalid JS `Date` is `Option.none`, and code
that can raise an exception returns `Except String`.
-/

/-! ## Text primitives (models of the JS string operations used by App.js) -/

/-- Model of `String.prototype.toLowerCase` on one character: ASCII letters are
lowered, everything else is untouched (the keyword lists in App.js are ASCII). -/
def lowerChar (c : Char) : Char :=
  if c.toNat ≥ 65 ∧ c.toNat ≤ 90 then Char.ofNat (c.toNat + 32) else c

/-- Model of `String.prototype.toLowerCase` on a whole string (as a char list). -/
def lowerStr (s : List Char) : List Char := s.map lowerChar

/-- Helper for substring search: does `hay` start with the given chars. -/
def hasPrefixCL : List Char → List Char → Bool
  | [], _ => true
  | _ :: _, [] => false
  | a :: as, b :: bs => a = b && hasPrefixCL as bs

/-- Model of `String.prototype.includes`: `needle` occurs contiguously in `hay`. -/
def containsCL (hay needle : List Char) : Bool :=
  match hay with
  | [] => hasPrefixCL needle []
  | _ :: t => hasPrefixCL needle hay || containsCL t needle

/-- Model of JS string truthiness for an optional field: `undefined` and the
empty string are falsy; a non-empty string is kept. -/
def jsTruthy : Option String → Option String
  | some s => if s = "" then none else some s
  | none => none

/-- Model of the JS expression `a || b` on optional string fields: the left
value when truthy, otherwise the right value when truthy, otherwise absent. -/
def jsOrOpt (a b : Option String) : Option String :=
  match jsTruthy a with
  | some s => some s
  | none => jsTruthy b

/-- Model of the JS defaulting idiom `field || dflt` for string fields. -/
def jsOrDefault (a : Option String) (dflt : String) : String :=
  match jsTruthy a with
  | some s => s
  | none => dflt

/-- Model of `s.split(c)[0]` in JS: the longest prefix before the separator
(the split of an empty string is `[""]`, so the head of the split of `""` is `""`). -/
def splitHeadBefore (s : String) (c : Char) : String :=
  String.mk (s.data.takeWhile (fun ch => ch != c))

/-! ## Configuration data (verbatim from src/src/App.js) -/

/-- Ordered bucket configuration `radiologySubdomains` from App.js lines 37-45.
JS object literals iterate string keys in insertion order, so the object is a
list of pairs here. `General/Other` is configured with no keywords. -/
def radiologySubdomains : List (String × List String) :=
  [ ("Neuroradiology", ["brain", "neurological", "spine", "head", "neck", "neural", "neuro"]),
    ("Chest/Cardiac", ["chest", "lung", "cardiac", "heart", "thoracic", "pulmonary", "cardiovascular"]),
    ("Abdominal", ["abdomen", "liver", "pancreas", "gastrointestinal", "gi", "abdominal"]),
    ("Musculoskeletal", ["musculoskeletal", "bone", "joint", "orthopedic", "msk", "skeletal"]),
    ("Breast", ["breast", "mammography", "mammogram", "mammographic"]),
    ("Nuclear/Molecular", ["nuclear", "pet", "molecular", "spect", "radioisotope"]),
    ("General/Other", []) ]

/-- The configured bucket labels, in configuration order. -/
def bucketLabels : List String := radiologySubdomains.map Prod.fst

/-- Journal allow-list `CLINICAL_RADIOLOGY_JOURNALS` from App.js lines 48-65. -/
def CLINICAL_RADIOLOGY_JOURNALS : List String :=
  [ "Radiology",
    "European Radiology",
    "American Journal of Roentgenology",
    "European Journal of Radiology",
    "Academic Radiology",
    "Journal of Digital Imaging",
    "Clinical Radiology",
    "British Journal of Radiology",
    "Radiographics",
    "Journal of the American College of Radiology",
    "Investigative Radiology",
    "Abdominal Radiology",
    "Neuroradiology",
    "Pediatric Radiology",
    "CardioVascular and Interventional Radiology",
    "Emergency Radiology" ]

/-- Exclusion keyword list `nonClinicalIndicators` from App.js lines 238-243. -/
def nonClinicalIndicators : List String :=
  ["letter to editor", "editorial", "erratum", "retraction"]

/-! ## The Article shape built by `processArticle` -/

/-- The canonical article object assembled by `processArticle` (App.js
lines 259-272). Timestamps are carried as their rendered strings. -/
structure Article where
  title : String
  abstract : String
  authors : List String
  journal : String
  publicationDate : String
  year : Int
  link : String
  meshTerms : List String
  publicationType : List String
  chemicals : List String
  keywords : List String
  dateIndexed : String
deriving DecidableEq

/-- The lowercased concatenation `(article.title + ' ' + article.abstract).toLowerCase()`
used by both `categorizeArticle` and `isClinicalPaper`. -/
def textOf (a : Article) : List Char := lowerStr (a.title ++ " " ++ a.abstract).data

/-! ## Classifier (`categorizeArticle`, App.js lines 82-91) -/

/-- The `for (const [subdomain, keywords] of Object.entries(radiologySubdomains))`
loop: return the first configured bucket one of whose keywords occurs in the
text, else the trailing `return 'General/Other'`. -/
def firstMatchSubdomain (text : List Char) : List (String × List String) → String
  | [] => "General/Other"
  | (sub, kws) :: rest =>
    if kws.any (fun k => containsCL text k.data) then sub
    else firstMatchSubdomain text rest

/-- Embedding of `categorizeArticle` from App.js lines 82-91. -/
def categorizeArticle (a : Article) : String :=
  firstMatchSubdomain (textOf a) radiologySubdomains

/-- True when some configured keyword (of any bucket) occurs in the article's
combined lowercased title and abstract. -/
def subdomainKeywordHit (a : Article) : Bool :=
  radiologySubdomains.any (fun p => p.2.any (fun k => containsCL (textOf a) k.data))

/-! ## Clinical/relevance filter (`isClinicalPaper`, App.js lines 216-247) -/

/-- The allow-list gate of `isClinicalPaper`: some configured journal name is a
case-insensitive substring of the article's journal field. -/
def journalAllowListed (a : Article) : Bool :=
  CLINICAL_RADIOLOGY_JOURNALS.any
    (fun j => containsCL (lowerStr a.journal.data) (lowerStr j.data))

/-- The `hasAI` conjunct of `isClinicalPaper` (App.js lines 228-231). -/
def hasAI (a : Article) : Bool :=
  containsCL (textOf a) "artificial intelligence".data ||
  containsCL (textOf a) "machine learning".data ||
  containsCL (textOf a) "deep learning".data ||
  containsCL (textOf a) "neural network".data

/-- The `hasImaging` conjunct of `isClinicalPaper` (App.js lines 233-236). -/
def hasImaging (a : Article) : Bool :=
  containsCL (textOf a) "imaging".data ||
  containsCL (textOf a) "radiology".data ||
  containsCL (textOf a) "radiological".data ||
  containsCL (textOf a) "radiographic".data

/-- The `isNonClinical` test of `isClinicalPaper` (App.js lines 238-244). -/
def hasNonClinicalIndicator (a : Article) : Bool :=
  nonClinicalIndicators.any (fun t => containsCL (textOf a) t.data)

/-- Embedding of `isClinicalPaper` from App.js lines 216-247. -/
def isClinicalPaper (a : Article) : Bool :=
  if !journalAllowListed a then false
  else hasAI a && hasImaging a && !hasNonClinicalIndicator a

/-! ## Record normalizer (`processArticle`, App.js lines 250-275) -/

/-- Raw PubMed esummary fragment: the fields `processArticle` reads. Absent
fields (`undefined` in JS) are `none`. Author objects are represented by
their `name` field, the only one the code reads. -/
structure RawItem where
  pubdate : Option String
  sortpubdate : Option String
  title : Option String
  abstract : Option String
  authors : Option (List String)
  fulljournalname : Option String
  uid : String
  mesh : Option (List String)
  pubtype : Option (List String)
  chemicals : Option (List String)
  keywords : Option (List String)
deriving DecidableEq

/-- The date-string resolution `item.pubdate || item.sortpubdate` followed by
the truthiness test of the ternary in App.js line 254. -/
def resolvedDateStr (item : RawItem) : Option String :=
  jsOrOpt item.pubdate item.sortpubdate

/-- The `Date` value bound to `pubDate` in App.js lines 251-257, for a given
model `parse` of the host engine's date parser (`new Date(string)`): `none`
is JS's Invalid Date. `new Date(string)` never raises, so the source's
`try/catch` around the assignment is dead code and catches nothing; with no
truthy date string the code takes the ternary's `now` branch. -/
def pubDateOf (parse : String → Option Int) (item : RawItem) (now : Int) : Option Int :=
  match resolvedDateStr item with
  | some s => parse s
  | none => some now

/-- Models `Date.prototype.toISOString` on a valid date: a canonical rendering
of the epoch-millisecond instant. The claims depend only on this being a
total function of the instant, so the digit layout is not reproduced. -/
def isoString (t : Int) : String := "ISO " ++ toString t

/-- Calendar year of an epoch-millisecond instant (days-to-civil-date
computation at UTC); models `Date.prototype.getFullYear` as used for the
`year` field. -/
def jsYearOf (t : Int) : Int :=
  let days := Int.fdiv t 86400000
  let z := days + 719468
  let era := Int.fdiv z 146097
  let doe := z - era * 146097
  let yoe := Int.fdiv (doe - Int.fdiv doe 1460 + Int.fdiv doe 36524 - Int.fdiv doe 146096) 365
  let y := yoe + era * 400
  let doy := doe - (365 * yoe + Int.fdiv yoe 4 - Int.fdiv yoe 100)
  let mp := Int.fdiv (5 * doy + 2) 153
  let m := mp + (if mp < 10 then 3 else -9)
  y + (if m ≤ 2 then 1 else 0)

/-- The `metadata` object literal of App.js lines 259-272, given the resolved
publication instant `t` and the indexing instant `tIdx` (the source calls
`new Date()` again for `dateIndexed`). -/
def buildMetadata (item : RawItem) (t tIdx : Int) : Article :=
  { title := jsOrDefault item.title "No Title"
    abstract := jsOrDefault item.abstract ""
    authors := item.authors.getD []
    journal := jsOrDefault item.fulljournalname ""
    publicationDate := isoString t
    year := jsYearOf t
    link := "https://pubmed.ncbi.nlm.nih.gov/" ++ item.uid
    meshTerms := item.mesh.getD []
    publicationType := item.pubtype.getD []
    chemicals := item.chemicals.getD []
    keywords := item.keywords.getD []
    dateIndexed := isoString tIdx }

/-- Embedding of `processArticle` from App.js lines 250-275. When `pubDate` is
an Invalid Date (the date string was truthy but unparseable), the object
literal's `pubDate.toISOString()` raises `RangeError: Invalid time value`
— this happens outside the source's `try`, so the error escapes; that path
is the `Except.error` branch. Otherwise the metadata passes through the
`isClinicalPaper` gate, yielding the article or `null` (`none`). -/
def processArticle (parse : String → Option Int) (item : RawItem) (now tIdx : Int) :
    Except String (Option Article) :=
  match pubDateOf parse item now with
  | none => Except.error "RangeError: Invalid time value"
  | some t =>
    if isClinicalPaper (buildMetadata item t tIdx) then
      Except.ok (some (buildMetadata item t tIdx))
    else
      Except.ok none

/-- Concrete model of the host engine's date parser for ISO `YYYY-MM-DD`
strings, used to instantiate the `parse` parameter in witnesses; strings in
any other shape are unparseable (Invalid Date, i.e. `none`). -/
def digitVal (c : Char) : Option Nat :=
  if c.isDigit then some (c.toNat - 48) else none

/-- Days from the epoch of a civil date (standard days-from-civil computation). -/
def daysFromCivil (y m d : Int) : Int :=
  let yy := y - (if m ≤ 2 then 1 else 0)
  let era := Int.fdiv yy 400
  let yoe := yy - era * 400
  let mp := m + (if m > 2 then -3 else 9)
  let doy := Int.fdiv (153 * mp + 2) 5 + d - 1
  let doe := yoe * 365 + Int.fdiv yoe 4 - Int.fdiv yoe 100 + doy
  era * 146097 + doe - 719468

/-- A concrete date parser recognizing exactly `YYYY-MM-DD` (see `digitVal`). -/
def jsDateParse (s : String) : Option Int :=
  match s.data with
  | [y1, y2, y3, y4, '-', m1, m2, '-', d1, d2] =>
    match digitVal y1, digitVal y2, digitVal y3, digitVal y4,
          digitVal m1, digitVal m2, digitVal d1, digitVal d2 with
    | some a, some b, some c, some d, some e, some f, some g, some h =>
      let y : Int := a * 1000 + b * 100 + c * 10 + d
      let mo : Int := e * 10 + f
      let dd : Int := g * 10 + h
      if 1 ≤ mo ∧ mo ≤ 12 ∧ 1 ≤ dd ∧ dd ≤ 31 then
        some (86400000 * daysFromCivil y mo dd)
      else none
    | _, _, _, _, _, _, _, _ => none
  | _ => none

/-! ## Deduplicator (the merge loop in `fetchArticles`, App.js lines 412-426) -/

/-- The `string-similarity` package's `compareTwoStrings` (Dice coefficient on
character bigrams after deleting all whitespace), compared against the
`> 0.8` threshold. The comparison is carried out exactly on the rational
value `2 * intersection / (len1 + len2 - 2)`: `10 * I > 4 * (L1 + L2 - 2)`.
For the integer operands that arise here the IEEE-double comparison in JS
agrees with the exact one (the quotient is at least `1/(5 * (L1 + L2 - 2))`
away from `4/5` whenever it differs from it, far above double rounding
error, and an exactly-`0.8` quotient compares false in both). Identical
whitespace-stripped strings score 1; strings shorter than two characters
score 0. -/
def stripWS (s : List Char) : List Char := s.filter (fun c => !c.isWhitespace)

/-- Character bigrams of a string, as consecutive pairs. -/
def bigramsOf : List Char → List (Char × Char)
  | a :: b :: rest => (a, b) :: bigramsOf (b :: rest)
  | _ => []

/-- Multiset intersection size of two bigram lists, mirroring the library's
count-map walk: each bigram of the second list consumes at most one
remaining occurrence in the first list. -/
def interSize : List (Char × Char) → List (Char × Char) → Nat
  | _, [] => 0
  | fst, b :: rest =>
    if fst.contains b then interSize (fst.erase b) rest + 1
    else interSize fst rest

/-- Decision `compareTwoStrings(s1, s2) > 0.8` (see `stripWS` for the exactness
argument). -/
def similarityGT08 (s1 s2 : List Char) : Bool :=
  let f := stripWS s1
  let g := stripWS s2
  if f = g then true
  else if f.length < 2 || g.length < 2 then false
  else 10 * interSize (bigramsOf f) (bigramsOf g) > 4 * (f.length + g.length - 2)

/-- The duplicate test of App.js lines 416-421: similarity of the lowercased
titles above the 0.8 threshold (first argument is the already-kept article). -/
def titleDup (a b : Article) : Bool :=
  similarityGT08 (lowerStr a.title.data) (lowerStr b.title.data)

/-- The dedup loop of App.js lines 412-426: starting from the already-kept
`combined` list, each incoming article is appended iff no kept article's
title is similar to it above the threshold. -/
def dedupeStep : List Article → List Article → List Article
  | combined, [] => combined
  | combined, x :: rest =>
    if combined.any (fun a => titleDup a x) then dedupeStep combined rest
    else dedupeStep (combined ++ [x]) rest

/-- The deduplication step applied to a single article set, as in the spec's
formulation: an article is kept iff no earlier-kept article is similar to it. -/
def dedupe (xs : List Article) : List Article := dedupeStep [] xs

/-- The articles the dedup loop appends to `acc` while consuming its input
(so `dedupeStep acc xs = acc ++ dedupeAdded acc xs`). -/
def dedupeAdded : List Article → List Article → List Article
  | _, [] => []
  | acc, x :: rest =>
    if acc.any (fun a => titleDup a x) then dedupeAdded acc rest
    else x :: dedupeAdded (acc ++ [x]) rest

/-- A list is duplicate-free relative to `acc`: walking it, no element is
similar to any article of `acc` or to any element kept before it. -/
def noDupAgainst : List Article → List Article → Bool
  | _, [] => true
  | acc, x :: rest => !(acc.any (fun a => titleDup a x)) && noDupAgainst (acc ++ [x]) rest

/-! ## Aggregator (`updateStats`, App.js lines 206-213, and the HeroSection
stats expressions, App.js lines 737-747) -/

/-- One execution of `stats[subdomain] = (stats[subdomain] || 0) + 1` on a JS
object held as its insertion-ordered key/value list: an existing key is
incremented in place, a missing key is appended with value 1. -/
def bumpKey : List (String × Nat) → String → List (String × Nat)
  | [], k => [(k, 1)]
  | (k', v) :: rest, k =>
    if k' = k then (k', v + 1) :: rest else (k', v) :: bumpKey rest k

/-- Embedding of `updateStats` (App.js lines 206-213): the per-bucket count
object built by the `articles.forEach` loop, starting from the empty object. -/
def updateStats (articles : List Article) : List (String × Nat) :=
  articles.foldl (fun stats a => bumpKey stats (categorizeArticle a)) []

/-- Sum of the counts of a stats object. -/
def statsTotal (stats : List (String × Nat)) : Nat := (stats.map Prod.snd).sum

/-- The `topSubdomain` expression of the HeroSection stats (App.js lines
739-743): reduce with strict `>` from the initial accumulator
`(key := "", value := 0)`, then `.key.split('/')[0]`. -/
def heroTopSubdomain (stats : List (String × Nat)) : String :=
  let m := stats.foldl (fun mx kv => if kv.2 > mx.2 then kv else mx) ("", 0)
  splitHeadBefore m.1 '/'

/-- JS number results relevant to the `avgAuthors` expression: a finite value,
`NaN`, or `Infinity` (division of a nonnegative total by a length). -/
inductive JsNum where
  | num (q : ℚ)
  | nan
  | inf
deriving DecidableEq

/-- The `articles.reduce((acc, curr) => acc + (curr.authors ? curr.authors.length : 0), 0)`
total of the HeroSection stats (App.js lines 744-745); `authors` is always
an array on the embedded Article shape, and an array is truthy in JS (even
when empty), so the ternary always adds its length. -/
def sumAuthorCounts (articles : List Article) : Nat :=
  articles.foldl (fun acc a => acc + a.authors.length) 0

/-- JS division of nonnegative integer operands: `0/0` is `NaN`, `x/0` with
positive `x` is `Infinity`, otherwise the exact quotient. -/
def jsDivNat (a b : Nat) : JsNum :=
  if b = 0 then (if a = 0 then JsNum.nan else JsNum.inf)
  else JsNum.num ((a : ℚ) / (b : ℚ))

/-- The `|| 0` applied to the quotient (App.js line 745): `NaN` and `0` are
falsy and give `0`; other values pass through. -/
def jsOrZero : JsNum → JsNum
  | JsNum.nan => JsNum.num 0
  | JsNum.num q => if q = 0 then JsNum.num 0 else JsNum.num q
  | JsNum.inf => JsNum.inf

/-- The numeric value of the `avgAuthors` HeroSection stat before its
formatting with `.toFixed(1)` (which renders `num 0` as `"0.0"`). -/
def heroAvgAuthorsNum (articles : List Article) : JsNum :=
  jsOrZero (jsDivNat (sumAuthorCounts articles) articles.length)

/-! ## Refresh scheduler (`checkAndRefresh`, App.js lines 442-477) -/

/-- The local calendar components the new-day check reads off a JS `Date`
(`getDate`, `getMonth`, `getFullYear`). -/
structure JsDateParts where
  year : Int
  month : Int
  day : Int
deriving DecidableEq

/-- The `isNewDay` test of `checkAndRefresh` (App.js lines 447-450): no stored
last-refresh value, or any calendar component differs. -/
def isNewDay : Option JsDateParts → JsDateParts → Bool
  | none, _ => true
  | some last, now =>
    (last.day != now.day) || (last.month != now.month) || (last.year != now.year)

/-- Whether one invocation of `checkAndRefresh` calls `fetchArticles`, as a
function of the `lastRefresh` state value its closure captured (App.js
lines 442-457): it fires exactly when the new-day check passes; there is no
check of any in-flight/loading flag. -/
def checkAndRefreshFires (lastRefresh : Option JsDateParts) (now : JsDateParts) : Bool :=
  isNewDay lastRefresh now

/-- Number of `fetchArticles` calls made by `k` triggers of `checkAndRefresh`
that run within one JS tick. Within a tick every invocation runs the same
callback closure, so each reads the same captured `lastRefresh` React state
value: `setLastRefresh` only takes effect at a later render, and
`fetchArticles` is asynchronous, so a fetch started by an earlier trigger
of the tick is still in flight when a later one runs. -/
def fetchesInTick (lastRefresh : Option JsDateParts) (now : JsDateParts) (k : Nat) : Nat :=
  (List.replicate k (checkAndRefreshFires lastRefresh now)).count true

/-! ## Concrete inputs used by witnesses and counterexamples -/

/-- An article whose text contains no configured subdomain keyword. -/
def zebraArticle : Article :=
  { title := "Zebra", abstract := "", authors := [], journal := "Radiology",
    publicationDate := "2025-01-02", year := 2025,
    link := "https://pubmed.ncbi.nlm.nih.gov/101", meshTerms := [],
    publicationType := [], chemicals := [], keywords := [],
    dateIndexed := "2025-01-02" }

/-- First-seen record of the duplicate pair: empty abstract and no authors. -/
def dupFirst : Article :=
  { title := "Deep Learning for Chest CT Triage", abstract := "", authors := [],
    journal := "Radiology", publicationDate := "2025-01-02", year := 2025,
    link := "https://pubmed.ncbi.nlm.nih.gov/111111", meshTerms := [],
    publicationType := [], chemicals := [], keywords := [],
    dateIndexed := "2025-01-02" }

/-- Later record of the duplicate pair: identical title, different source id,
and more complete abstract/authors fields. -/
def dupSecond : Article :=
  { title := "Deep Learning for Chest CT Triage",
    abstract := "Validated on a large set of chest CT studies.",
    authors := ["A. Reader", "B. Writer"], journal := "Radiology",
    publicationDate := "2025-01-03", year := 2025,
    link := "https://scholar.google.com/citations?x=9", meshTerms := [],
    publicationType := [], chemicals := [], keywords := [],
    dateIndexed := "2025-01-03" }

/-- Allow-listed journal, both keyword groups hit, plus the exclusion keyword
`editorial` in the title. -/
def editorialArticle : Article :=
  { title := "Editorial: deep learning in imaging", abstract := "", authors := [],
    journal := "Radiology", publicationDate := "2025-01-02", year := 2025,
    link := "https://pubmed.ncbi.nlm.nih.gov/102", meshTerms := [],
    publicationType := [], chemicals := [], keywords := [],
    dateIndexed := "2025-01-02" }

/-- Allow-listed journal, both keyword groups hit, no exclusion keyword. -/
def passingArticle : Article :=
  { title := "Deep learning for lung nodule detection",
    abstract := "A CT imaging study.", authors := ["A. Reader"],
    journal := "Radiology", publicationDate := "2025-01-02", year := 2025,
    link := "https://pubmed.ncbi.nlm.nih.gov/103", meshTerms := [],
    publicationType := [], chemicals := [], keywords := [],
    dateIndexed := "2025-01-02" }

/-- Same text as `passingArticle` but a journal outside the allow-list. -/
def offListArticle : Article :=
  { title := "Deep learning for lung nodule detection",
    abstract := "A CT imaging study.", authors := ["A. Reader"],
    journal := "Unrelated Journal", publicationDate := "2025-01-02", year := 2025,
    link := "https://pubmed.ncbi.nlm.nih.gov/104", meshTerms := [],
    publicationType := [], chemicals := [], keywords := [],
    dateIndexed := "2025-01-02" }

/-- Allow-listed journal, both keyword groups hit, plus the exclusion keyword
`erratum` in the abstract. -/
def erratumArticle : Article :=
  { title := "Deep learning for lung nodule detection",
    abstract := "Erratum to a CT imaging study.", authors := [],
    journal := "Radiology", publicationDate := "2025-01-02", year := 2025,
    link := "https://pubmed.ncbi.nlm.nih.gov/105", meshTerms := [],
    publicationType := [], chemicals := [], keywords := [],
    dateIndexed := "2025-01-02" }

/-- Raw record whose truthy `pubdate` is not a parseable date string. -/
def badDateItem : RawItem :=
  { pubdate := some "not-a-date", sortpubdate := none,
    title := some "Deep learning for lung nodule detection",
    abstract := some "A CT imaging study.", authors := some ["A. Reader"],
    fulljournalname := some "Radiology", uid := "201",
    mesh := none, pubtype := none, chemicals := none, keywords := none }

/-- Raw record with both date fields absent. -/
def noDateItem : RawItem :=
  { pubdate := none, sortpubdate := none,
    title := some "Deep learning for lung nodule detection",
    abstract := some "A CT imaging study.", authors := some ["A. Reader"],
    fulljournalname := some "Radiology", uid := "202",
    mesh := none, pubtype := none, chemicals := none, keywords := none }

/-! ## Helper lemmas -/

/-- The first-match loop returns either the fallback label or the label of one
of the configured buckets. -/
theorem firstMatchSubdomain_mem (text : List Char) (l : List (String × List String)) :
    firstMatchSubdomain text l = "General/Other" ∨
      firstMatchSubdomain text l ∈ l.map Prod.fst := by
  induction l with
  | nil => exact Or.inl rfl
  | cons p rest ih =>
    obtain ⟨sub, kws⟩ := p
    cases h : kws.any (fun k => containsCL text k.data) with
    | true => right; simp [firstMatchSubdomain, h]
    | false =>
      have hstep : firstMatchSubdomain text ((sub, kws) :: rest) =
          firstMatchSubdomain text rest := by
        simp [firstMatchSubdomain, h]
      rw [hstep]
      rcases ih with h1 | h1
      · exact Or.inl h1
      · right; simp only [List.map_cons, List.mem_cons]; exact Or.inr h1

/-- With no keyword hit in any configured bucket, the first-match loop falls
through to the fallback label. -/
theorem firstMatchSubdomain_nohit (text : List Char) :
    ∀ l : List (String × List String),
      l.any (fun p => p.2.any (fun k => containsCL text k.data)) = false →
      firstMatchSubdomain text l = "General/Other" := by
  intro l
  induction l with
  | nil => intro _; rfl
  | cons p rest ih =>
    intro h
    obtain ⟨sub, kws⟩ := p
    rw [List.any_cons] at h
    cases hk : kws.any (fun k => containsCL text k.data) with
    | true => rw [hk] at h; simp at h
    | false =>
      rw [hk] at h
      simp only [Bool.false_or] at h
      simp [firstMatchSubdomain, hk, ih h]

/-- A string always clears the similarity threshold against itself. -/
theorem similarityGT08_self (s : List Char) : similarityGT08 s s = true := by
  simp [similarityGT08]

/-- The dedup loop returns the kept list followed by the articles it adds. -/
theorem dedupeStep_eq_append :
    ∀ xs acc : List Article, dedupeStep acc xs = acc ++ dedupeAdded acc xs := by
  intro xs
  induction xs with
  | nil => intro acc; simp [dedupeStep, dedupeAdded]
  | cons x rest ih =>
    intro acc
    cases h : acc.any (fun a => titleDup a x) with
    | true => simp [dedupeStep, dedupeAdded, h, ih]
    | false => simp [dedupeStep, dedupeAdded, h, ih]

/-- What the dedup loop adds is duplicate-free relative to the kept list. -/
theorem noDupAgainst_dedupeAdded :
    ∀ xs acc : List Article, noDupAgainst acc (dedupeAdded acc xs) = true := by
  intro xs
  induction xs with
  | nil => intro acc; rfl
  | cons x rest ih =>
    intro acc
    cases h : acc.any (fun a => titleDup a x) with
    | true => simp [dedupeAdded, h, ih]
    | false => simp [dedupeAdded, noDupAgainst, h, ih]

/-- The dedup loop adds a duplicate-free list unchanged. -/
theorem dedupeAdded_fixpoint :
    ∀ xs acc : List Article, noDupAgainst acc xs = true → dedupeAdded acc xs = xs := by
  intro xs
  induction xs with
  | nil => intro acc _; rfl
  | cons x rest ih =>
    intro acc h
    simp only [noDupAgainst, Bool.and_eq_true, Bool.not_eq_true'] at h
    simp [dedupeAdded, h.1, ih _ h.2]

/-- One bump of the stats object raises the total count by exactly one. -/
theorem statsTotal_bumpKey (stats : List (String × Nat)) (k : String) :
    statsTotal (bumpKey stats k) = statsTotal stats + 1 := by
  induction stats with
  | nil => rfl
  | cons p rest ih =>
    obtain ⟨k', v⟩ := p
    by_cases h : k' = k
    · simp [bumpKey, h, statsTotal]; omega
    · simp only [bumpKey, if_neg h, statsTotal, List.map_cons, List.sum_cons]
      have ih' : statsTotal (bumpKey rest k) = statsTotal rest + 1 := ih
      simp only [statsTotal] at ih'
      omega

/-- Folding the stats update over a list adds the list's length to the total. -/
theorem statsTotal_foldl (l : List Article) :
    ∀ s : List (String × Nat),
      statsTotal (l.foldl (fun stats a => bumpKey stats (categorizeArticle a)) s) =
        statsTotal s + l.length := by
  induction l with
  | nil => intro s; simp
  | cons a rest ih =>
    intro s
    simp only [List.foldl_cons, List.length_cons]
    rw [ih (bumpKey s (categorizeArticle a)), statsTotal_bumpKey]
    omega

/-! ## Claim theorems -/

/-- Claim C1: for every Article, `categorizeArticle` returns exactly one bucket
label drawn from the configured set, and when no configured keyword occurs
in the lowercased title-plus-abstract text it returns `General/Other`. -/
theorem C1_one_bucket_with_default (a : Article) :
    categorizeArticle a ∈ bucketLabels ∧
    (subdomainKeywordHit a = false → categorizeArticle a = "General/Other") := by
  constructor
  · rcases firstMatchSubdomain_mem (textOf a) radiologySubdomains with h | h
    · show firstMatchSubdomain (textOf a) radiologySubdomains ∈ bucketLabels
      rw [h]; decide
    · exact h
  · intro h
    exact firstMatchSubdomain_nohit (textOf a) radiologySubdomains h

/-- Witness for C1 at a concrete article with no keyword occurrence. -/
theorem C1_witness :
    categorizeArticle zebraArticle ∈ bucketLabels ∧
      categorizeArticle zebraArticle = "General/Other" :=
  ⟨(C1_one_bucket_with_default zebraArticle).1,
   (C1_one_bucket_with_default zebraArticle).2 (by decide)⟩

/-- Claim C2 (what the code actually does): when the record's resolved date
string is truthy but the engine cannot parse it, `processArticle` does not
fall back to the ingestion time — the object literal calls
`pubDate.toISOString()` on the Invalid Date, outside the `try`, and the
call raises. -/
theorem C2_unparseable_date_raises (parse : String → Option Int) (item : RawItem)
    (now tIdx : Int) (h : pubDateOf parse item now = none) :
    processArticle parse item now tIdx =
      Except.error "RangeError: Invalid time value" := by
  unfold processArticle
  rw [h]

/-- Witness for C2 at a concrete unparseable record. -/
theorem C2_witness :
    processArticle jsDateParse badDateItem 1700000000000 1700000000001 =
      Except.error "RangeError: Invalid time value" :=
  C2_unparseable_date_raises jsDateParse badDateItem 1700000000000 1700000000001 (by decide)

/-- Claim C3: the deduplication step is idempotent — applied to its own output
it changes nothing. -/
theorem C3_dedupe_idempotent (X : List Article) : dedupe (dedupe X) = dedupe X := by
  have h1 : dedupe X = dedupeAdded [] X := by
    rw [dedupe, dedupeStep_eq_append X []]; rfl
  rw [h1, dedupe, dedupeStep_eq_append (dedupeAdded [] X) [],
    dedupeAdded_fixpoint (dedupeAdded [] X) [] (noDupAgainst_dedupeAdded X [])]
  rfl

/-- Counterexample to claim C4 as stated: for two records with identical
titles and different source ids, the dedup loop's output is exactly the
first-seen record — the later record's non-empty abstract and authors are
discarded rather than merged, so no field preference or provenance union
happens. -/
theorem C4_counterexample :
    dedupe [dupFirst, dupSecond] = [dupFirst] ∧
    dupFirst.abstract = "" ∧ dupSecond.abstract ≠ "" ∧
    dupFirst.authors = [] ∧ dupSecond.authors ≠ [] ∧
    dupFirst.link ≠ dupSecond.link := by
  decide

/-- Claim C4 as amended: for two articles with identical lowercased titles the
dedup output contains exactly one article, namely the first-seen record
unchanged (so its id and bucket-relevant fields are kept); the later record
is dropped entirely. -/
theorem C4_first_seen_kept (a b : Article)
    (h : lowerStr a.title.data = lowerStr b.title.data) :
    dedupe [a, b] = [a] := by
  have hd : titleDup a b = true := by
    unfold titleDup; rw [h]; exact similarityGT08_self _
  simp [dedupe, dedupeStep, hd]

/-- Witness for the amended C4 at the concrete duplicate pair. -/
theorem C4_witness : dedupe [dupFirst, dupSecond] = [dupFirst] :=
  C4_first_seen_kept dupFirst dupSecond (by decide)

/-- Counterexample to claim C5 as stated: on empty input `updateStats` returns
the empty object — no configured bucket is present with a zero count. -/
theorem C5_counterexample :
    updateStats ([] : List Article) = [] ∧
    "Neuroradiology" ∈ bucketLabels ∧
    "Neuroradiology" ∉ (updateStats ([] : List Article)).map Prod.fst := by
  exact ⟨rfl, by decide, by decide⟩

/-- Claim C5 as amended: on empty input the per-bucket mapping is empty
(buckets are absent, not present at zero), the top-subdomain leaderboard
field resolves to the empty-string sentinel, and the average-author count
resolves to the number 0 (rendered `0.0`); every step is a total function,
so nothing throws and nothing is undefined. -/
theorem C5_empty_input_defined :
    updateStats ([] : List Article) = [] ∧
    heroTopSubdomain (updateStats ([] : List Article)) = "" ∧
    heroAvgAuthorsNum ([] : List Article) = JsNum.num 0 :=
  ⟨rfl, rfl, rfl⟩

/-- Counterexample to claim C6 as stated: an article in an allow-listed
journal whose text hits both required keyword groups is still rejected
when an exclusion keyword is present. -/
theorem C6_counterexample :
    journalAllowListed editorialArticle = true ∧
    hasAI editorialArticle = true ∧
    hasImaging editorialArticle = true ∧
    isClinicalPaper editorialArticle = false := by
  decide

/-- Claim C6 as amended: an article whose journal misses the allow-list is
rejected regardless of its text; an article in an allow-listed journal
whose text hits every required keyword group and contains no exclusion
keyword passes. -/
theorem C6_allow_list_gate (a : Article) :
    (journalAllowListed a = false → isClinicalPaper a = false) ∧
    (journalAllowListed a = true → hasAI a = true → hasImaging a = true →
      hasNonClinicalIndicator a = false → isClinicalPaper a = true) := by
  constructor
  · intro h; simp [isClinicalPaper, h]
  · intro h1 h2 h3 h4; simp [isClinicalPaper, h1, h2, h3, h4]

/-- Witness for the amended C6 at the spec's scenario articles. -/
theorem C6_witness :
    isClinicalPaper offListArticle = false ∧ isClinicalPaper passingArticle = true :=
  ⟨(C6_allow_list_gate offListArticle).1 (by decide),
   (C6_allow_list_gate passingArticle).2 (by decide) (by decide) (by decide) (by decide)⟩

/-- Claim C7: whenever an exclusion-list keyword occurs in the combined
lowercased title and abstract, `isClinicalPaper` returns false, whatever
the other conditions say. -/
theorem C7_exclusion_always_rejects (a : Article)
    (h : hasNonClinicalIndicator a = true) : isClinicalPaper a = false := by
  unfold isClinicalPaper
  rw [h]
  cases journalAllowListed a <;> simp

/-- Witness for C7 at a concrete allow-listed, keyword-hitting erratum. -/
theorem C7_witness : isClinicalPaper erratumArticle = false :=
  C7_exclusion_always_rejects erratumArticle (by decide)

/-- Claim C8: for a record with no truthy date field, `processArticle` does not
throw and any article it produces carries the ingestion instant `now` as
its publication date. -/
theorem C8_missing_dates_fall_back_to_now (parse : String → Option Int)
    (item : RawItem) (now tIdx : Int) (h : resolvedDateStr item = none) :
    ∃ r, processArticle parse item now tIdx = Except.ok r ∧
      ∀ a, r = some a → a.publicationDate = isoString now := by
  have hp : pubDateOf parse item now = some now := by
    unfold pubDateOf; rw [h]
  unfold processArticle
  rw [hp]
  by_cases hc : isClinicalPaper (buildMetadata item now tIdx) = true
  · refine ⟨some (buildMetadata item now tIdx), by simp [hc], ?_⟩
    intro a ha
    cases ha
    rfl
  · refine ⟨none, by simp [hc], ?_⟩
    intro a ha
    exact Option.noConfusion ha

/-- Witness for C8 at a concrete record with both date fields absent. -/
theorem C8_witness :
    ∃ r, processArticle jsDateParse noDateItem 1700000000000 1700000000001 = Except.ok r ∧
      ∀ a, r = some a → a.publicationDate = isoString 1700000000000 :=
  C8_missing_dates_fall_back_to_now jsDateParse noDateItem 1700000000000 1700000000001 rfl

/-- Counterexample to claim C9 as stated: two triggers of `checkAndRefresh` in
the same tick, with no stored last refresh (so the first trigger starts a
fetch that is still in flight when the second runs), both call
`fetchArticles` — two fetch sequences execute, not one. -/
theorem C9_counterexample :
    fetchesInTick none ⟨2025, 9, 11⟩ 2 = 2 := by decide

/-- Claim C9 as amended: `checkAndRefresh` has no in-flight guard. A trigger is
a no-op only when the captured last-refresh value lies on the same calendar
day as the trigger; when the new-day check passes, every trigger of the
tick starts its own fetch sequence. -/
theorem C9_no_inflight_guard (lr : Option JsDateParts) (now : JsDateParts) :
    (isNewDay lr now = true → fetchesInTick lr now 2 = 2) ∧
    (isNewDay lr now = false → fetchesInTick lr now 2 = 0) := by
  constructor
  · intro h
    show (List.replicate 2 (checkAndRefreshFires lr now)).count true = 2
    rw [checkAndRefreshFires, h]
    decide
  · intro h
    show (List.replicate 2 (checkAndRefreshFires lr now)).count true = 0
    rw [checkAndRefreshFires, h]
    decide

/-- Witness for the amended C9 on both sides of the new-day check. -/
theorem C9_witness :
    fetchesInTick (some ⟨2025, 8, 10⟩) ⟨2025, 9, 11⟩ 2 = 2 ∧
    fetchesInTick (some ⟨2025, 9, 11⟩) ⟨2025, 9, 11⟩ 2 = 0 :=
  ⟨(C9_no_inflight_guard (some ⟨2025, 8, 10⟩) ⟨2025, 9, 11⟩).1 (by decide),
   (C9_no_inflight_guard (some ⟨2025, 9, 11⟩) ⟨2025, 9, 11⟩).2 (by decide)⟩

/-- Claim C10: the per-bucket counts produced by `updateStats` always sum to
the number of input articles — each article is counted in exactly one
bucket. -/
theorem C10_stats_sum_to_length (articles : List Article) :
    statsTotal (updateStats articles) = articles.length := by
  have h := statsTotal_foldl articles []
  simpa [updateStats, statsTotal] using h
